import Mathlib

/-!
Shallow embedding of the log parsing and event-normalization engine of the
repository (src/features.py), together with theorems settling the frozen
claims about it.

Strings are modelled as `List Char`.  The Python-specific primitives used by
the code (`str.splitlines`, `str.strip`, `str.upper`, the `in` substring
test, the single compiled regex `log_pattern`, and the two
`pandas.to_datetime` calls) are each given an executable Lean counterpart
below, translated operation by operation from the source.
-/

namespace LogAnalyzer

/-- Whitespace characters recognised by Python's `str.strip` and by the
regex class for whitespace (Unicode whitespace set of CPython). -/
def pyIsSpace (c : Char) : Bool :=
  let n := c.toNat
  n == 0x09 || n == 0x0a || n == 0x0b || n == 0x0c || n == 0x0d || n == 0x20 ||
  (decide (0x1c ≤ n) && decide (n ≤ 0x1f)) || n == 0x85 || n == 0xa0 ||
  n == 0x1680 || (decide (0x2000 ≤ n) && decide (n ≤ 0x200a)) ||
  n == 0x2028 || n == 0x2029 || n == 0x202f || n == 0x205f || n == 0x3000

/-- Line boundaries recognised by Python's `str.splitlines`. -/
def isLineBoundary (c : Char) : Bool :=
  let n := c.toNat
  n == 0x0a || n == 0x0d || n == 0x0b || n == 0x0c || n == 0x1c ||
  n == 0x1d || n == 0x1e || n == 0x85 || n == 0x2028 || n == 0x2029

/-- Worker for `splitlines`: accumulates the current line in reverse. -/
def splitlinesAux : List Char → List Char → List (List Char)
  | [], acc => if acc.isEmpty then [] else [acc.reverse]
  | '\r' :: '\n' :: rest, acc => acc.reverse :: splitlinesAux rest []
  | c :: rest, acc =>
      if isLineBoundary c then acc.reverse :: splitlinesAux rest []
      else splitlinesAux rest (c :: acc)

/-- Python `str.splitlines`: split at line boundaries (with `\r\n` as a
single boundary); a trailing boundary produces no empty final line. -/
def splitlines (l : List Char) : List (List Char) :=
  splitlinesAux l []

/-- Python `str.strip()`: drop leading and trailing whitespace. -/
def pyStrip (l : List Char) : List Char :=
  ((l.dropWhile pyIsSpace).reverse.dropWhile pyIsSpace).reverse

/-- Python `str.upper()` (ASCII case mapping; the severity keywords the code
compares against are ASCII). -/
def pyToUpper (l : List Char) : List Char :=
  l.map Char.toUpper

/-- Python's substring test `needle in hay`. -/
def containsSub (needle : List Char) : List Char → Bool
  | [] => needle.isEmpty
  | c :: rest => needle.isPrefixOf (c :: rest) || containsSub needle rest

/-- Match exactly `n` decimal digits (the regex atom for a digit repeated
`n` times), returning the matched characters and the remainder. -/
def matchNDigits (n : Nat) (l : List Char) : Option (List Char × List Char) :=
  let pre := l.take n
  if pre.length = n ∧ pre.all Char.isDigit then some (pre, l.drop n) else none

/-- Match one literal character, returning the remainder. -/
def matchCh (a : Char) : List Char → Option (List Char)
  | c :: rest => if c = a then some rest else none
  | [] => none

/-- The timestamp alternative of `log_pattern` (src/features.py line 33):
four digits, dash, two digits, dash, two digits, space, three colon-separated
two-digit groups, then a greedy optional comma plus three digits.  Returns
the matched substring and the remainder; `none` if the line does not start
with a timestamp of this shape. -/
def matchTimestamp (l : List Char) : Option (List Char × List Char) := do
  let (d1, r1) ← matchNDigits 4 l
  let r2 ← matchCh '-' r1
  let (d2, r3) ← matchNDigits 2 r2
  let r4 ← matchCh '-' r3
  let (d3, r5) ← matchNDigits 2 r4
  let r6 ← matchCh ' ' r5
  let (d4, r7) ← matchNDigits 2 r6
  let r8 ← matchCh ':' r7
  let (d5, r9) ← matchNDigits 2 r8
  let r10 ← matchCh ':' r9
  let (d6, r11) ← matchNDigits 2 r10
  let core := d1 ++ '-' :: d2 ++ '-' :: d3 ++ ' ' :: d4 ++ ':' :: d5 ++ ':' :: d6
  match matchCh ',' r11 with
  | some r12 =>
    match matchNDigits 3 r12 with
    | some (ms, r13) => some (core ++ ',' :: ms, r13)
    | none => some (core, r11)
  | none => some (core, r11)

/-- The level alternation of `log_pattern` (src/features.py line 34):
the alternatives INFO, WARN, WARNING, ERROR, DEBUG, CRITICAL, FATAL are
tried in this order at the current position; the first that matches wins
(the rest of the pattern always succeeds, so the engine never revisits this
choice). -/
def matchLevelWord (l : List Char) : Option (List Char × List Char) :=
  if l.take 4 = "INFO".data then some ("INFO".data, l.drop 4)
  else if l.take 4 = "WARN".data then some ("WARN".data, l.drop 4)
  else if l.take 7 = "WARNING".data then some ("WARNING".data, l.drop 7)
  else if l.take 5 = "ERROR".data then some ("ERROR".data, l.drop 5)
  else if l.take 5 = "DEBUG".data then some ("DEBUG".data, l.drop 5)
  else if l.take 8 = "CRITICAL".data then some ("CRITICAL".data, l.drop 8)
  else if l.take 5 = "FATAL".data then some ("FATAL".data, l.drop 5)
  else none

/-- One attempt of the bracket-wrapped level group at a given position:
greedy optional closing bracket after the word.  Returns
(level word, remainder after the word, remainder after the optional
closing bracket). -/
def levelAttempt (r : List Char) : Option (List Char × List Char × List Char) :=
  match matchLevelWord r with
  | some (w, r2) =>
    match r2 with
    | ']' :: r3 => some (w, r2, r3)
    | _ => some (w, r2, r2)
  | none => none

/-- The optional level group of `log_pattern`: a greedy optional opening
bracket, the level alternation, and a greedy optional closing bracket.
If the opening bracket is consumed but no level word follows, the engine
backtracks and retries without consuming the bracket. -/
def matchLevelGroup (l : List Char) : Option (List Char × List Char × List Char) :=
  match l with
  | '[' :: r =>
    match levelAttempt r with
    | some res => some res
    | none => levelAttempt l
  | _ => levelAttempt l

/-- Optional-timestamp stage of `log_pattern`: the matched timestamp
substring (if any) and the remainder of the line. -/
def afterTimestamp (l : List Char) : Option (List Char) × List Char :=
  match matchTimestamp l with
  | some (m, r) => (some m, r)
  | none => (none, l)

/-- Result of `log_pattern.match(line)` (src/features.py lines 32-36): the
named groups, plus the remainder of the line from the end of the level word
(`line[match.end('level'):]`, used by the message re-derivation at lines
59-62).  The pattern as a whole always matches, since every component is
optional and the message group matches any (possibly empty) string. -/
structure RegexResult where
  timestamp_str : Option (List Char)
  level_group : Option (List Char)
  message_capture : List Char
  restAfterLevel : List Char
deriving DecidableEq, Repr

/-- The full match `log_pattern.match(line)`: optional timestamp from the start, greedy
whitespace, optional bracket-wrapped level, greedy whitespace, then the
message group capturing every remaining character up to a newline. -/
def log_pattern_match (l : List Char) : RegexResult :=
  let t := afterTimestamp l
  let r2 := t.2.dropWhile pyIsSpace
  match matchLevelGroup r2 with
  | some (w, rw, rb) =>
    { timestamp_str := t.1, level_group := some w,
      message_capture := (rb.dropWhile pyIsSpace).takeWhile (fun c => c ≠ '\n'),
      restAfterLevel := rw }
  | none =>
    { timestamp_str := t.1, level_group := none,
      message_capture := (r2.dropWhile pyIsSpace).takeWhile (fun c => c ≠ '\n'),
      restAfterLevel := r2 }

/-- The level after the structured match (src/features.py lines 46, 55-56):
the upper-cased matched level word, defaulting to INFO when the level group
did not participate in the match. -/
def structuredLevel (l : List Char) : List Char :=
  match (log_pattern_match l).level_group with
  | some w => pyToUpper w
  | none => "INFO".data

/-- The message after the structured match and the empty-message
re-derivation (src/features.py lines 53, 59-62): the stripped message
capture; if that is empty while both a timestamp and a level matched, the
stripped remainder of the line after the level word.  (Line 60 first takes
the remainder after the timestamp, but line 62 immediately overwrites it
with the remainder after the level, since the branch requires the level
group to be present.) -/
def structuredMessage (l : List Char) : List Char :=
  let m := log_pattern_match l
  let msg0 := pyStrip m.message_capture
  if msg0.isEmpty ∧ m.timestamp_str.isSome ∧ m.level_group.isSome then
    pyStrip m.restAfterLevel
  else msg0

/-- The keyword-override stage (src/features.py lines 67-70): if the
upper-cased line contains "ERROR" and the level is not already ERROR,
CRITICAL or FATAL, force ERROR; otherwise, if it contains "WARN" or
"WARNING" and the level is not already WARN or WARNING, force WARN. -/
def keywordOverride (l : List Char) (level : List Char) : List Char :=
  if containsSub "ERROR".data (pyToUpper l) ∧ level ≠ "ERROR".data ∧
      level ≠ "CRITICAL".data ∧ level ≠ "FATAL".data then
    "ERROR".data
  else if (containsSub "WARN".data (pyToUpper l) ∨ containsSub "WARNING".data (pyToUpper l)) ∧
      level ≠ "WARN".data ∧ level ≠ "WARNING".data then
    "WARN".data
  else level

/-- One classified line before timestamp coercion (the dict built at
src/features.py lines 73-78). -/
structure ParsedEntry where
  timestamp_str : Option (List Char)
  level : List Char
  message : List Char
  raw_line : List Char
deriving DecidableEq, Repr

/-- The Line Classifier: the loop body of `parse_log_data`
(src/features.py lines 43-78) applied to one already-stripped non-blank
line. -/
def classifyLine (l : List Char) : ParsedEntry :=
  { timestamp_str := (log_pattern_match l).timestamp_str,
    level := keywordOverride l (structuredLevel l),
    message := structuredMessage l,
    raw_line := l }

/-- The elevated-severity levels collected for the summarizer
(src/features.py line 82). -/
def elevatedLevels : List (List Char) :=
  ["ERROR".data, "WARN".data, "WARNING".data, "CRITICAL".data, "FATAL".data]

/-- The per-line loop of `parse_log_data` (src/features.py lines 38-84):
strip each line, skip blank lines, classify the rest in order, and append
the raw line to the elevated collection while it holds fewer than
`maxL` entries. -/
def processLines (maxL : Nat) : List (List Char) → List ParsedEntry → List (List Char) →
    List ParsedEntry × List (List Char)
  | [], es, rs => (es, rs)
  | raw :: rest, es, rs =>
    let line := pyStrip raw
    if line.isEmpty then processLines maxL rest es rs
    else
      let e := classifyLine line
      let rs2 := if elevatedLevels.contains e.level ∧ rs.length < maxL then rs ++ [line] else rs
      processLines maxL rest (es ++ [e]) rs2

/-- A parsed absolute time, as produced by the datetime parsing
(year, month, day, hour, minute, second, microsecond). -/
structure PyDateTime where
  year : Nat
  month : Nat
  day : Nat
  hour : Nat
  minute : Nat
  second : Nat
  microsecond : Nat
deriving DecidableEq, Repr

def isLeapYear (y : Nat) : Bool :=
  (y % 4 == 0 && y % 100 != 0) || y % 400 == 0

def daysInMonth (y m : Nat) : Nat :=
  if m = 2 then (if isLeapYear y then 29 else 28)
  else if m = 4 ∨ m = 6 ∨ m = 9 ∨ m = 11 then 30
  else 31

def digitVal (c : Char) : Nat := c.toNat - '0'.toNat

/-- A strptime numeric field of one or two digits, greedy. -/
def match1or2Digits : List Char → Option (Nat × List Char)
  | c1 :: c2 :: rest =>
    if c1.isDigit then
      if c2.isDigit then some (digitVal c1 * 10 + digitVal c2, rest)
      else some (digitVal c1, c2 :: rest)
    else none
  | [c1] => if c1.isDigit then some (digitVal c1, []) else none
  | [] => none

/-- The strptime year field: exactly four digits. -/
def match4Digits : List Char → Option (Nat × List Char)
  | a :: b :: c :: d :: rest =>
    if a.isDigit && b.isDigit && c.isDigit && d.isDigit then
      some (((digitVal a * 10 + digitVal b) * 10 + digitVal c) * 10 + digitVal d, rest)
    else none
  | _ => none

/-- The shared prefix of both timestamp formats
(`%Y-%m-%d %H:%M:%S`), with field-range validation as done when the
datetime value is constructed.  Returns the parsed value and the
unconsumed remainder. -/
def parseDatetimeCore (l : List Char) : Option (PyDateTime × List Char) := do
  let (y, r1) ← match4Digits l
  let r2 ← matchCh '-' r1
  let (mo, r3) ← match1or2Digits r2
  let r4 ← matchCh '-' r3
  let (d, r5) ← match1or2Digits r4
  let r6 ← matchCh ' ' r5
  let (h, r7) ← match1or2Digits r6
  let r8 ← matchCh ':' r7
  let (mi, r9) ← match1or2Digits r8
  let r10 ← matchCh ':' r9
  let (s, r11) ← match1or2Digits r10
  if 1 ≤ y ∧ 1 ≤ mo ∧ mo ≤ 12 ∧ 1 ≤ d ∧ d ≤ daysInMonth y mo ∧
      h ≤ 23 ∧ mi ≤ 59 ∧ s ≤ 59 then
    some (⟨y, mo, d, h, mi, s, 0⟩, r11)
  else none

/-- Parsing against the second-precision format `%Y-%m-%d %H:%M:%S`
(src/features.py line 95): the whole string must be consumed. -/
def parseDatetimeSec (l : List Char) : Option PyDateTime :=
  match parseDatetimeCore l with
  | some (dt, []) => some dt
  | _ => none

/-- Parsing against the millisecond-precision format
`%Y-%m-%d %H:%M:%S,%f` (src/features.py line 91): after the comma, one to
six digits interpreted as a fraction of a second, and the whole string must
be consumed. -/
def parseDatetimeMs (l : List Char) : Option PyDateTime :=
  match parseDatetimeCore l with
  | some (dt, ',' :: r2) =>
    let ds := r2.takeWhile Char.isDigit
    let r3 := r2.dropWhile Char.isDigit
    if 1 ≤ ds.length ∧ ds.length ≤ 6 ∧ r3.isEmpty then
      some { dt with
             microsecond := (ds.foldl (fun a c => a * 10 + digitVal c) 0) * 10 ^ (6 - ds.length) }
    else none
  | _ => none

/-- Per-event meaning of the column-wise timestamp coercion: try the
millisecond format first, fall back to the second-precision format, and
produce nothing when the raw timestamp is absent or both formats fail.
Proved equal to the column computation in `timestampColumn_eq`. -/
def coerceOne (s? : Option (List Char)) : Option PyDateTime :=
  match s? with
  | none => none
  | some s =>
    match parseDatetimeMs s with
    | some dt => some dt
    | none => parseDatetimeSec s

/-- The two `pandas.to_datetime(..., errors=coerce)` passes of
src/features.py lines 91-96: parse the whole column with the millisecond
format, and only if some entry failed, fill the failures from a second pass
with the second-precision format. -/
def coerceColumn (col : List (Option (List Char))) : List (Option PyDateTime) :=
  let first := col.map (fun s? => s?.bind parseDatetimeMs)
  if first.any (fun t? => t?.isNone) then
    (first.zip col).map (fun p =>
      match p.1 with
      | some dt => some dt
      | none => p.2.bind parseDatetimeSec)
  else first

/-- The guarded timestamp column construction (src/features.py lines
89-98): when the column is missing or every raw timestamp is null, the
column is all-missing; otherwise the two coercion passes run. -/
def timestampColumn (col : List (Option (List Char))) : List (Option PyDateTime) :=
  if col.all (fun s? => s?.isNone) then col.map (fun _ => none)
  else coerceColumn col

/-- One row of the final DataFrame returned by `parse_log_data`. -/
structure LogEvent where
  timestamp_str : Option (List Char)
  level : List Char
  message : List Char
  raw_line : List Char
  timestamp : Option PyDateTime
deriving DecidableEq, Repr

/-- The function `parse_log_data` (src/features.py lines 12-103): split the content into
lines, classify every non-blank line, coerce the timestamp column, and
return the events together with the bounded elevated-line collection. -/
def parse_log_data (log_content : List Char) (max_lines_for_llm : Nat) :
    List LogEvent × List (List Char) :=
  let pr := processLines max_lines_for_llm (splitlines log_content) [] []
  let tcol := timestampColumn (pr.1.map (fun e => e.timestamp_str))
  ((pr.1.zip tcol).map (fun p =>
      { timestamp_str := p.1.timestamp_str, level := p.1.level,
        message := p.1.message, raw_line := p.1.raw_line, timestamp := p.2 }),
   pr.2)

/-- Result of `process_logs_and_summarize` as far as the core pipeline is
concerned: the summary text, the success flag, and the error message.
(The download-link construction on the success path is pure string
encoding of the summary and is elided; the markdown default path is
modelled.) -/
structure ProcessResult where
  summary : List Char
  success : Bool
  error : Option (List Char)
deriving DecidableEq, Repr

/-- Python `"\n".join(...)`. -/
def joinLines : List (List Char) → List Char
  | [] => []
  | [x] => x
  | x :: rest => x ++ '\n' :: joinLines rest

def noSignificantMsg : List Char :=
  "No significant errors or warnings found in the provided log file.".data

/-- The function `process_logs_and_summarize` (src/features.py lines 106-193) on already
decoded content, with the external summarizer (`generate_log_summary`,
an opaque third-party service call) passed as a function: parse, and if the
elevated collection is empty return the no-findings success immediately;
otherwise invoke the summarizer and fail when it returns an empty string or
a string starting with "ERROR:". -/
def process_logs_and_summarize (generate_log_summary : List Char → List Char)
    (log_content : List Char) : ProcessResult :=
  let parsed := parse_log_data log_content 200
  let logs_for_llm := joinLines parsed.2
  if logs_for_llm.isEmpty ∧ parsed.2.isEmpty then
    { summary := noSignificantMsg, success := true, error := none }
  else
    let summary_text := generate_log_summary logs_for_llm
    if summary_text.isEmpty ∨ "ERROR:".data.isPrefixOf summary_text then
      { summary := [], success := false, error := some summary_text }
    else
      { summary := summary_text, success := true, error := none }

/-- Non-blank input lines after stripping, in input order. -/
def nonBlankLines (content : List Char) : List (List Char) :=
  ((splitlines content).map pyStrip).filter (fun l => !l.isEmpty)

/-- The stripped non-blank lines whose classified level is elevated, in
input order. -/
def elevatedOf (ls : List (List Char)) : List (List Char) :=
  ((ls.map pyStrip).filter (fun l => !l.isEmpty)).filter
    (fun l => elevatedLevels.contains (classifyLine l).level)

/-- The enrichment of a classified entry into a final event: the fields are
kept and the timestamp is the coerced raw timestamp. -/
def enrich (e : ParsedEntry) : LogEvent :=
  { timestamp_str := e.timestamp_str, level := e.level, message := e.message,
    raw_line := e.raw_line, timestamp := coerceOne e.timestamp_str }

/-- The event produced for the single line "oops ERROR happened". -/
def oopsEvent : LogEvent :=
  ⟨none, "ERROR".data, "oops ERROR happened".data, "oops ERROR happened".data, none⟩

theorem classifyLine_raw (l : List Char) : (classifyLine l).raw_line = l := rfl

theorem processLines_fst (maxL : Nat) (ls : List (List Char)) :
    ∀ (es : List ParsedEntry) (rs : List (List Char)),
      (processLines maxL ls es rs).1 =
        es ++ (((ls.map pyStrip).filter (fun l => !l.isEmpty)).map classifyLine) := by
  induction ls with
  | nil => intro es rs; simp [processLines]
  | cons raw rest ih =>
    intro es rs
    by_cases h : (pyStrip raw).isEmpty
    · simp [processLines, h, ih]
    · simp [processLines, h, ih, List.append_assoc]

theorem elevatedOf_cons_blank {raw : List Char} (rest : List (List Char))
    (h : (pyStrip raw).isEmpty) : elevatedOf (raw :: rest) = elevatedOf rest := by
  simp [elevatedOf, h]

theorem elevatedOf_cons_elev {raw : List Char} (rest : List (List Char))
    (hb : ¬ (pyStrip raw).isEmpty = true)
    (hel : (classifyLine (pyStrip raw)).level ∈ elevatedLevels) :
    elevatedOf (raw :: rest) = pyStrip raw :: elevatedOf rest := by
  simp [elevatedOf, hb, hel]

theorem elevatedOf_cons_notelev {raw : List Char} (rest : List (List Char))
    (hel : ¬ (classifyLine (pyStrip raw)).level ∈ elevatedLevels) :
    elevatedOf (raw :: rest) = elevatedOf rest := by
  by_cases hb : (pyStrip raw).isEmpty
  · simp [elevatedOf, hb]
  · simp [elevatedOf, hb, hel]

theorem processLines_snd (maxL : Nat) (ls : List (List Char)) :
    ∀ (es : List ParsedEntry) (rs : List (List Char)), rs.length ≤ maxL →
      (processLines maxL ls es rs).2 = rs ++ (elevatedOf ls).take (maxL - rs.length) := by
  induction ls with
  | nil => intro es rs h; simp [processLines, elevatedOf]
  | cons raw rest ih =>
    intro es rs h
    by_cases hb : (pyStrip raw).isEmpty
    · rw [show processLines maxL (raw :: rest) es rs = processLines maxL rest es rs by
        simp [processLines, hb]]
      rw [ih es rs h, elevatedOf_cons_blank rest hb]
    · by_cases hel : (classifyLine (pyStrip raw)).level ∈ elevatedLevels
      · by_cases hlen : rs.length < maxL
        · rw [show processLines maxL (raw :: rest) es rs =
              processLines maxL rest (es ++ [classifyLine (pyStrip raw)]) (rs ++ [pyStrip raw]) by
            simp [processLines, hb, hel, hlen]]
          rw [ih _ _ (by simp; omega), elevatedOf_cons_elev rest hb hel]
          have h1 : maxL - rs.length = (maxL - (rs.length + 1)) + 1 := by omega
          simp [h1, List.take_succ_cons]
        · have heq : rs.length = maxL := by omega
          rw [show processLines maxL (raw :: rest) es rs =
              processLines maxL rest (es ++ [classifyLine (pyStrip raw)]) rs by
            simp [processLines, hb, hel, hlen]]
          rw [ih _ _ h, elevatedOf_cons_elev rest hb hel]
          simp [heq]
      · rw [show processLines maxL (raw :: rest) es rs =
            processLines maxL rest (es ++ [classifyLine (pyStrip raw)]) rs by
          simp [processLines, hb, hel]]
        rw [ih _ _ h, elevatedOf_cons_notelev rest hel]

theorem coerceColumn_eq (col : List (Option (List Char))) :
    coerceColumn col = col.map coerceOne := by
  unfold coerceColumn
  by_cases h : (col.map (fun s? => s?.bind parseDatetimeMs)).any (fun t? => t?.isNone)
  · simp only [h, if_true]
    rw [show (col.map (fun s? => s?.bind parseDatetimeMs)).zip col
        = (col.map (fun s? => s?.bind parseDatetimeMs)).zip (col.map id) by rw [List.map_id]]
    rw [List.zip_map' (fun s? => s?.bind parseDatetimeMs) id col, List.map_map]
    apply List.map_congr_left
    intro s? _
    cases s? with
    | none => rfl
    | some s =>
      cases hm : parseDatetimeMs s with
      | none => simp [coerceOne, Function.comp, hm]
      | some dt => simp [coerceOne, Function.comp, hm]
  · simp only [h, if_false]
    apply List.map_congr_left
    intro s? hmem
    have hns : ¬ (s?.bind parseDatetimeMs).isNone = true := by
      simp only [List.any_eq_true, not_exists, not_and] at h
      exact h (s?.bind parseDatetimeMs) (List.mem_map_of_mem _ hmem)
    cases s? with
    | none => simp at hns
    | some s =>
      cases hm : parseDatetimeMs s with
      | none => simp only [Option.some_bind, hm, Option.isNone] at hns; simp at hns
      | some dt => simp [coerceOne, hm]

theorem timestampColumn_eq (col : List (Option (List Char))) :
    timestampColumn col = col.map coerceOne := by
  unfold timestampColumn
  by_cases h : col.all (fun s? => s?.isNone)
  · simp only [h, if_true]
    apply List.map_congr_left
    intro s? hmem
    have := (List.all_eq_true.mp h) s? hmem
    cases s? with
    | none => rfl
    | some s => simp at this
  · simp only [h, if_false]
    exact coerceColumn_eq col

theorem zip_self_map {α β γ : Type} (f : α → β) (g : α × β → γ) :
    ∀ l : List α, (l.zip (l.map f)).map g = l.map (fun a => g (a, f a))
  | [] => rfl
  | a :: rest => by
    simp only [List.map_cons, List.zip_cons_cons, zip_self_map f g rest]

theorem parse_events_eq (content : List Char) (maxL : Nat) :
    (parse_log_data content maxL).1 =
      ((nonBlankLines content).map classifyLine).map enrich := by
  simp only [parse_log_data]
  rw [timestampColumn_eq, List.map_map, zip_self_map]
  rw [processLines_fst, List.nil_append]
  rfl

theorem parse_snd_eq (content : List Char) (maxL : Nat) :
    (parse_log_data content maxL).2 = (elevatedOf (splitlines content)).take maxL := by
  simp only [parse_log_data]
  rw [processLines_snd maxL (splitlines content) [] [] (by simp)]
  simp

theorem matchLevelWord_ne_warning {l w r : List Char}
    (h : matchLevelWord l = some (w, r)) : ¬ w = "WARNING".data := by
  intro hw
  subst hw
  unfold matchLevelWord at h
  split at h
  · simp at h
  · split at h
    · simp at h
    · split at h
      · rename_i h4 h7
        apply h4
        have h47 : List.take 4 l = List.take 4 (List.take 7 l) := by
          rw [List.take_take]
          norm_num
        rw [h47, h7]
        decide
      · split at h
        · simp at h
        · split at h
          · simp at h
          · split at h
            · simp at h
            · split at h
              · simp at h
              · simp at h

theorem matchLevelWord_mem {l w r : List Char}
    (h : matchLevelWord l = some (w, r)) :
    w = "INFO".data ∨ w = "WARN".data ∨ w = "WARNING".data ∨ w = "ERROR".data ∨
      w = "DEBUG".data ∨ w = "CRITICAL".data ∨ w = "FATAL".data := by
  unfold matchLevelWord at h
  split at h
  · simp at h; exact Or.inl h.1.symm
  · split at h
    · simp at h; exact Or.inr (Or.inl h.1.symm)
    · split at h
      · simp at h; exact Or.inr (Or.inr (Or.inl h.1.symm))
      · split at h
        · simp at h; exact Or.inr (Or.inr (Or.inr (Or.inl h.1.symm)))
        · split at h
          · simp at h
            exact Or.inr (Or.inr (Or.inr (Or.inr (Or.inl h.1.symm))))
          · split at h
            · simp at h
              exact Or.inr (Or.inr (Or.inr (Or.inr (Or.inr (Or.inl h.1.symm)))))
            · split at h
              · simp at h
                exact Or.inr (Or.inr (Or.inr (Or.inr (Or.inr (Or.inr h.1.symm)))))
              · simp at h

theorem levelAttempt_word {r w a b : List Char}
    (h : levelAttempt r = some (w, a, b)) : ∃ r2, matchLevelWord r = some (w, r2) := by
  unfold levelAttempt at h
  split at h
  · rename_i hm
    split at h <;>
      (simp only [Option.some.injEq, Prod.mk.injEq] at h
       rw [h.1] at hm
       exact ⟨_, hm⟩)
  · simp at h

theorem matchLevelGroup_word {l w a b : List Char}
    (h : matchLevelGroup l = some (w, a, b)) :
    ∃ r r2, matchLevelWord r = some (w, r2) := by
  unfold matchLevelGroup at h
  split at h
  · split at h
    · rename_i res hres
      simp only [Option.some.injEq] at h
      subst h
      obtain ⟨r2, h2⟩ := levelAttempt_word hres
      exact ⟨_, r2, h2⟩
    · obtain ⟨r2, h2⟩ := levelAttempt_word h
      exact ⟨_, r2, h2⟩
  · obtain ⟨r2, h2⟩ := levelAttempt_word h
    exact ⟨_, r2, h2⟩

theorem level_group_word {l w : List Char}
    (h : (log_pattern_match l).level_group = some w) :
    ∃ r r2, matchLevelWord r = some (w, r2) := by
  simp only [log_pattern_match] at h
  split at h
  · rename_i hm
    simp at h
    subst h
    exact matchLevelGroup_word hm
  · simp at h

theorem structuredLevel_cases (l : List Char) :
    structuredLevel l = "INFO".data ∨ structuredLevel l = "WARN".data ∨
      structuredLevel l = "WARNING".data ∨ structuredLevel l = "ERROR".data ∨
      structuredLevel l = "DEBUG".data ∨ structuredLevel l = "CRITICAL".data ∨
      structuredLevel l = "FATAL".data := by
  unfold structuredLevel
  cases hg : (log_pattern_match l).level_group with
  | none => exact Or.inl rfl
  | some w =>
    obtain ⟨r, r2, hw⟩ := level_group_word hg
    rcases matchLevelWord_mem hw with h | h | h | h | h | h | h <;> subst h
    · exact Or.inl (by decide)
    · exact Or.inr (Or.inl (by decide))
    · exact Or.inr (Or.inr (Or.inl (by decide)))
    · exact Or.inr (Or.inr (Or.inr (Or.inl (by decide))))
    · exact Or.inr (Or.inr (Or.inr (Or.inr (Or.inl (by decide)))))
    · exact Or.inr (Or.inr (Or.inr (Or.inr (Or.inr (Or.inl (by decide))))))
    · exact Or.inr (Or.inr (Or.inr (Or.inr (Or.inr (Or.inr (by decide))))))

theorem structuredLevel_ne_warning (l : List Char) :
    ¬ structuredLevel l = "WARNING".data := by
  unfold structuredLevel
  cases hg : (log_pattern_match l).level_group with
  | none => decide
  | some w =>
    obtain ⟨r, r2, hw⟩ := level_group_word hg
    have hne := matchLevelWord_ne_warning hw
    rcases matchLevelWord_mem hw with h | h | h | h | h | h | h <;> subst h
    · decide
    · decide
    · exact absurd rfl hne
    · decide
    · decide
    · decide
    · decide

theorem keywordOverride_cases (l level : List Char) :
    keywordOverride l level = "ERROR".data ∨ keywordOverride l level = "WARN".data ∨
      keywordOverride l level = level := by
  unfold keywordOverride
  split
  · exact Or.inl rfl
  · split
    · exact Or.inr (Or.inl rfl)
    · exact Or.inr (Or.inr rfl)

/-- C9: for every input string whatsoever the Line Classifier terminates
(it is a total function) and its level is one of the seven enumerated
severities CRITICAL, FATAL, ERROR, WARN, WARNING, INFO, DEBUG; never empty
or null. -/
theorem classifier_level_total (l : List Char) :
    (classifyLine l).level = "CRITICAL".data ∨ (classifyLine l).level = "FATAL".data ∨
      (classifyLine l).level = "ERROR".data ∨ (classifyLine l).level = "WARN".data ∨
      (classifyLine l).level = "WARNING".data ∨ (classifyLine l).level = "INFO".data ∨
      (classifyLine l).level = "DEBUG".data := by
  have hcl : (classifyLine l).level = keywordOverride l (structuredLevel l) := rfl
  rcases keywordOverride_cases l (structuredLevel l) with h | h | h
  · exact Or.inr (Or.inr (Or.inl (hcl.trans h)))
  · exact Or.inr (Or.inr (Or.inr (Or.inl (hcl.trans h))))
  · have h3 := hcl.trans h
    rcases structuredLevel_cases l with h2 | h2 | h2 | h2 | h2 | h2 | h2 <;> rw [h2] at h3
    · exact Or.inr (Or.inr (Or.inr (Or.inr (Or.inr (Or.inl h3)))))
    · exact Or.inr (Or.inr (Or.inr (Or.inl h3)))
    · exact Or.inr (Or.inr (Or.inr (Or.inr (Or.inl h3))))
    · exact Or.inr (Or.inr (Or.inl h3))
    · exact Or.inr (Or.inr (Or.inr (Or.inr (Or.inr (Or.inr h3)))))
    · exact Or.inl h3
    · exact Or.inr (Or.inl h3)

/-- C10: no input line ever gets the level WARNING: the alternation of
`log_pattern` lists WARN before WARNING so the structured match never
yields the word WARNING, and the keyword override only ever assigns ERROR
or WARN; consequently no event of the pipeline carries level WARNING. -/
theorem warning_level_unreachable :
    (∀ l : List Char, ((classifyLine l).level == "WARNING".data) = false) ∧
      (∀ (content : List Char) (maxLines : Nat),
        ((parse_log_data content maxLines).1.map LogEvent.level).all
          (fun lv => !(lv == "WARNING".data)) = true) := by
  have hcl : ∀ l : List Char, ¬ (classifyLine l).level = "WARNING".data := by
    intro l
    show ¬ keywordOverride l (structuredLevel l) = _
    rcases keywordOverride_cases l (structuredLevel l) with h | h | h <;> rw [h]
    · decide
    · decide
    · exact structuredLevel_ne_warning l
  constructor
  · intro l
    exact beq_eq_false_iff_ne.mpr (hcl l)
  · intro content maxLines
    rw [parse_events_eq]
    simp only [List.map_map, List.all_map, List.all_eq_true]
    intro l hl
    simpa [Function.comp, enrich] using beq_eq_false_iff_ne.mpr (hcl l)

/-- C3: a line containing "ERROR" case-insensitively whose structured level
is not ERROR, CRITICAL or FATAL is always promoted to ERROR by the keyword
override, in particular a line containing "error" inside an otherwise-INFO
message. -/
theorem error_keyword_promotion (l : List Char)
    (h1 : containsSub "ERROR".data (pyToUpper l) = true)
    (h2 : structuredLevel l ≠ "ERROR".data)
    (h3 : structuredLevel l ≠ "CRITICAL".data)
    (h4 : structuredLevel l ≠ "FATAL".data) :
    (classifyLine l).level = "ERROR".data := by
  show keywordOverride l (structuredLevel l) = _
  unfold keywordOverride
  rw [if_pos ⟨h1, h2, h3, h4⟩]

/-- Witness for C3: "note: an error was handled" has structured level INFO
and is promoted to ERROR. -/
theorem error_keyword_promotion_witness :
    (classifyLine "note: an error was handled".data).level = "ERROR".data :=
  error_keyword_promotion "note: an error was handled".data
    (by decide) (by decide) (by decide) (by decide)

/-- C1 fails on the code: a line whose structured level is CRITICAL but
which also contains the substring "warning" is demoted to WARN by the
keyword override. -/
theorem critical_demoted_counterexample :
    structuredLevel "CRITICAL warning: disk failure".data = "CRITICAL".data ∧
      (classifyLine "CRITICAL warning: disk failure".data).level = "WARN".data ∧
      (((classifyLine "CRITICAL warning: disk failure".data).level == "CRITICAL".data) ||
        ((classifyLine "CRITICAL warning: disk failure".data).level == "FATAL".data)) = false := by
  refine ⟨by decide, by decide, by decide⟩

/-- C1 amended: when the structured match assigns CRITICAL or FATAL, the
ERROR-keyword branch never fires (it requires the level not to be CRITICAL
or FATAL), so an "error" substring alone never changes the level; but the
WARN-keyword branch still fires whenever the line contains "WARN" or
"WARNING" case-insensitively, demoting the level to WARN; without such a
substring the structured level is kept. -/
theorem critical_fatal_override_characterization (l : List Char)
    (h : structuredLevel l = "CRITICAL".data ∨ structuredLevel l = "FATAL".data) :
    (classifyLine l).level =
      (if containsSub "WARN".data (pyToUpper l) ∨ containsSub "WARNING".data (pyToUpper l)
       then "WARN".data else structuredLevel l) := by
  show keywordOverride l (structuredLevel l) = _
  unfold keywordOverride
  have hne : ¬ (containsSub "ERROR".data (pyToUpper l) = true ∧
      structuredLevel l ≠ "ERROR".data ∧ structuredLevel l ≠ "CRITICAL".data ∧
      structuredLevel l ≠ "FATAL".data) := by
    rcases h with h | h <;> rw [h]
    · rintro ⟨-, -, hc, -⟩
      exact hc rfl
    · rintro ⟨-, -, -, hf⟩
      exact hf rfl
  rw [if_neg hne]
  by_cases hw : containsSub "WARN".data (pyToUpper l) = true ∨
      containsSub "WARNING".data (pyToUpper l) = true
  · have hnw : structuredLevel l ≠ "WARN".data ∧ structuredLevel l ≠ "WARNING".data := by
      rcases h with h | h <;> rw [h] <;> exact ⟨by decide, by decide⟩
    rw [if_pos ⟨hw, hnw.1, hnw.2⟩, if_pos hw]
  · rw [if_neg (fun hc => hw hc.1), if_neg hw]

/-- Witness for C1 amended: "[FATAL] reactor offline" keeps level FATAL. -/
theorem critical_fatal_override_witness :
    structuredLevel "[FATAL] reactor offline".data = "FATAL".data ∧
      (classifyLine "[FATAL] reactor offline".data).level = "FATAL".data := by
  have h := critical_fatal_override_characterization "[FATAL] reactor offline".data
    (Or.inr (by decide))
  refine ⟨by decide, ?_⟩
  rw [h]
  decide

/-- C2 fails on the code: "WARNING Disk low" is classified with level WARN
(not WARNING) and message "ING Disk low" (not "Disk low"), because the
alternation tries WARN before WARNING and commits to it. -/
theorem warning_token_counterexample :
    (classifyLine "WARNING Disk low".data).level = "WARN".data ∧
      ((classifyLine "WARNING Disk low".data).level == "WARNING".data) = false ∧
      (classifyLine "WARNING Disk low".data).message = "ING Disk low".data ∧
      ((classifyLine "WARNING Disk low".data).message == "Disk low".data) = false := by
  refine ⟨by decide, by decide, by decide, by decide⟩

/-- C2 amended: on every line starting with the token WARNING, the
structured match consumes only the WARN prefix as the level word and the
remaining "ING" plus the rest of the line becomes the message capture; in
particular "WARNING Disk low" is classified as level WARN with message
"ING Disk low". -/
theorem warning_token_matches_warn :
    (∀ rest : List Char,
      (log_pattern_match ("WARNING".data ++ rest)).level_group = some "WARN".data ∧
      (log_pattern_match ("WARNING".data ++ rest)).message_capture =
        ("ING".data ++ rest).takeWhile (fun c => c ≠ '
')) ∧
    (classifyLine "WARNING Disk low".data).level = "WARN".data ∧
    (classifyLine "WARNING Disk low".data).message = "ING Disk low".data := by
  refine ⟨fun rest => ⟨rfl, rfl⟩, by decide, by decide⟩

/-- C4: the elevated-line collection is exactly the first `maxLines` raw
lines of elevated-severity events, in original input order; its length is
the minimum of the cap and the total number of elevated lines (so 250
elevated lines with a cap of 200 give exactly the first 200). -/
theorem elevated_lines_cap (content : List Char) (maxLines : Nat) :
    (parse_log_data content maxLines).2 =
        (elevatedOf (splitlines content)).take maxLines ∧
      ((parse_log_data content maxLines).2).length =
        min maxLines (elevatedOf (splitlines content)).length := by
  refine ⟨parse_snd_eq content maxLines, ?_⟩
  rw [parse_snd_eq content maxLines]
  exact List.length_take maxLines (elevatedOf (splitlines content))

/-- C5: the events are exactly one per non-blank input line, in input
order; each raw_line is the stripped original line and is non-empty, and
the number of events equals the number of non-blank lines. -/
theorem events_per_nonblank_line (content : List Char) (maxLines : Nat) :
    ((parse_log_data content maxLines).1.map LogEvent.raw_line) = nonBlankLines content ∧
      ((parse_log_data content maxLines).1).length = (nonBlankLines content).length ∧
      ((parse_log_data content maxLines).1.map LogEvent.raw_line).all
        (fun l => !l.isEmpty) = true := by
  have hmap : ((parse_log_data content maxLines).1.map LogEvent.raw_line) =
      nonBlankLines content := by
    rw [parse_events_eq, List.map_map, List.map_map]
    have h0 : ((LogEvent.raw_line ∘ enrich) ∘ classifyLine) = id := by
      funext l
      rfl
    rw [h0, List.map_id]
  refine ⟨hmap, ?_, ?_⟩
  · have := congrArg List.length hmap
    simpa using this
  · rw [hmap]
    rw [List.all_eq_true]
    intro x hx
    exact (List.mem_filter.mp hx).2

/-- C6: for every event of the pipeline, the timestamp is obtained from
the raw timestamp by first attempting the millisecond-precision format
and, only if that fails, the second-precision format; an absent raw
timestamp, or one on which both formats fail, gives an absent timestamp
(and never an error: all functions involved are total). -/
theorem timestamp_coercion_fallback (content : List Char) (maxLines : Nat)
    (e : LogEvent) (he : e ∈ (parse_log_data content maxLines).1) :
    e.timestamp =
      (match e.timestamp_str with
       | none => none
       | some s =>
         match parseDatetimeMs s with
         | some dt => some dt
         | none => parseDatetimeSec s) := by
  rw [parse_events_eq] at he
  rw [List.map_map] at he
  obtain ⟨l, _, rfl⟩ := List.mem_map.mp he
  rfl

/-- Witness for C6: the single line "oops ERROR happened" has no raw
timestamp and therefore no parsed timestamp. -/
theorem timestamp_coercion_fallback_witness :
    oopsEvent ∈ (parse_log_data "oops ERROR happened".data 200).1 ∧
      oopsEvent.timestamp = none := by
  have hm : oopsEvent ∈ (parse_log_data "oops ERROR happened".data 200).1 := by decide
  exact ⟨hm, timestamp_coercion_fallback "oops ERROR happened".data 200 _ hm⟩

/-- C7: the single line "2024-06-25 10:00:22,333 ERROR Database connection
failed" round-trips: raw timestamp "2024-06-25 10:00:22,333", level ERROR,
message "Database connection failed", and parsed timestamp June 25 2024,
10:00:22.333 (microsecond 333000). -/
theorem timestamp_roundtrip_example :
    (parse_log_data "2024-06-25 10:00:22,333 ERROR Database connection failed".data 200).1 =
      [{ timestamp_str := some "2024-06-25 10:00:22,333".data,
         level := "ERROR".data,
         message := "Database connection failed".data,
         raw_line := "2024-06-25 10:00:22,333 ERROR Database connection failed".data,
         timestamp := some ⟨2024, 6, 25, 10, 0, 22, 333000⟩ }] := by
  decide

/-- C8: whenever the elevated-line collection is empty the pipeline
returns the "no significant findings" success (success flag true, no
error) without consulting the summarizer (the result is the same for any
two summarizers); empty content in particular yields zero events and an
empty elevated collection. -/
theorem empty_elevated_no_summarizer
    (s1 s2 : List Char → List Char) (content : List Char)
    (h : (parse_log_data content 200).2 = []) :
    process_logs_and_summarize s1 content =
        { summary := noSignificantMsg, success := true, error := none } ∧
      process_logs_and_summarize s1 content = process_logs_and_summarize s2 content ∧
      (parse_log_data ([] : List Char) 200).1 = [] ∧
      (parse_log_data ([] : List Char) 200).2 = [] := by
  have h1 : ∀ s : List Char → List Char, process_logs_and_summarize s content =
      { summary := noSignificantMsg, success := true, error := none } := by
    intro s
    simp only [process_logs_and_summarize]
    rw [h]
    simp [joinLines]
  exact ⟨h1 s1, (h1 s1).trans (h1 s2).symm, by decide, by decide⟩

/-- Witness for C8: empty content takes the no-findings success path. -/
theorem empty_elevated_no_summarizer_witness :
    process_logs_and_summarize (fun _ => "SUMMARY".data) ([] : List Char) =
        { summary := noSignificantMsg, success := true, error := none } ∧
      (parse_log_data ([] : List Char) 200).1 = [] := by
  have h := empty_elevated_no_summarizer (fun _ => "SUMMARY".data)
    (fun _ => "SUMMARY".data) ([] : List Char) (by decide)
  exact ⟨h.1, h.2.2.1⟩

end LogAnalyzer
